import Mathlib

/-!
Verification development for a LinkedIn job-listing backend.

The definitions below are a shallow embedding of the Python backend:

* `Filters` embeds `backend/app/scraper/filters.py` (regex parsers for
  applicant counts and posted times, closed/reposted detection, the
  day-to-`f_TPR` conversion, and the structural job filter).
* `GuestApi` embeds the URL-parameter assembly of
  `backend/app/scraper/linkedin_guest_api.py`.
* `Security` embeds the rate limiter and sanitizers of
  `backend/app/middleware/security.py`.
* `HtmlValidator` and `Validator` embed the tier-2/tier-3 validators of
  `backend/app/scraper/html_validator.py` and `backend/app/scraper/validator.py`,
  with network responses abstracted into outcome values.
* `Orchestrator` embeds the job-list dataflow of
  `backend/app/scraper/orchestrator.py` (`_merge_jobs` and `run_scrape`).
* `Router` embeds the run registry and endpoints of
  `backend/app/routers/scraper.py`.

Python dictionaries holding job records become a structure of optional
fields (`none` = key absent or `None`); Python truthiness is modelled
explicitly at each use site.  The handful of regular expressions in
`filters.py` are transliterated into deterministic matchers; each regex is
quoted next to its matcher.  All repeated character classes in those
regexes (`\s`, `\d`) are disjoint from the token that follows them, so
maximal-munch matching coincides with the backtracking semantics.
-/

namespace JobScraper

/-- Characters matched by the regex class `\s` (ASCII range). -/
def isWs (c : Char) : Bool :=
  c = ' ' || c = '\t' || c = '\n' || c = '\r' || c = '\x0b' || c = '\x0c'

/-- Python `str.lower()` restricted to the ASCII letters that occur in the
embedded patterns and inputs. -/
def pyLower (s : String) : List Char :=
  s.toList.map Char.toLower

/-- A deterministic pattern matcher: consume a prefix, return the rest. -/
abbrev Matcher := List Char → Option (List Char)

/-- Match a literal character sequence. -/
def lit : List Char → Matcher
  | [], cs => some cs
  | p :: ps, c :: cs => if c = p then lit ps cs else none
  | _ :: _, [] => none

/-- Match a literal string. -/
def litS (s : String) : Matcher := lit s.toList

/-- Sequential composition of matchers. -/
def pall : List Matcher → Matcher
  | [], cs => some cs
  | m :: ms, cs =>
    match m cs with
    | some r => pall ms r
    | none => none

/-- Ordered alternation, as in a regex `(?:a|b|c)`. -/
def palt : List Matcher → Matcher
  | [], _ => none
  | m :: ms, cs =>
    match m cs with
    | some r => some r
    | none => palt ms cs

/-- Optional group `(...)?` (greedy). -/
def popt (m : Matcher) : Matcher := fun cs =>
  match m cs with
  | some r => some r
  | none => some cs

/-- Optional single character, as in `s?` (greedy). -/
def poptChar (c : Char) : Matcher := fun cs =>
  match cs with
  | c' :: r => if c' = c then some r else some cs
  | [] => some []

/-- `p*` for a character class (maximal munch). -/
def pmany0 (p : Char → Bool) : Matcher := fun cs => some (cs.dropWhile p)

/-- `p+` for a character class (maximal munch). -/
def pmany1 (p : Char → Bool) : Matcher := fun cs =>
  match cs with
  | c :: r => if p c then some (r.dropWhile p) else none
  | [] => none

/-- `.` : any single character. -/
def panyChar : Matcher := fun cs =>
  match cs with
  | _ :: r => some r
  | [] => none

/-- A character class such as `[ée]`. -/
def poneOf (l : List Char) : Matcher := fun cs =>
  match cs with
  | c :: r => if l.contains c then some r else none
  | [] => none

/-- `re.search` semantics: try the recogniser at every position, leftmost
first, and return the first success. -/
def searchSome {α : Type} (f : List Char → Option α) : List Char → Option α
  | [] => f []
  | c :: cs =>
    match f (c :: cs) with
    | some v => some v
    | none => searchSome f cs

/-- `re.search` as a Boolean test. -/
def searchB (m : Matcher) (cs : List Char) : Bool :=
  (searchSome m cs).isSome

/-- Maximal run of decimal digits. -/
def takeDigits (cs : List Char) : List Char × List Char :=
  cs.span Char.isDigit

/-- Numeric value of a digit run. -/
def natOfDigits (ds : List Char) : Nat :=
  ds.foldl (fun n c => n * 10 + (c.toNat - '0'.toNat)) 0

/-- Capture group `(\d+)`. -/
def numPlain (cs : List Char) : Option (Nat × List Char) :=
  let (ds, rest) := takeDigits cs
  if ds.isEmpty then none else some (natOfDigits ds, rest)

/-- Capture group `(\d+(?:,\d+)?)`, evaluated after `num_str.replace(",", "")`
as in `parse_applicant_count`. -/
def numComma (cs : List Char) : Option (Nat × List Char) :=
  let (ds, rest) := takeDigits cs
  if ds.isEmpty then none
  else
    match rest with
    | ',' :: r2 =>
      let (ds2, r3) := takeDigits r2
      if ds2.isEmpty then some (natOfDigits ds, rest)
      else some (natOfDigits (ds ++ ds2), r3)
    | _ => some (natOfDigits ds, rest)

end JobScraper

namespace JobScraper

/-- A `posted_ago` value: the field holds a string in discovery output but
`job_passes_filters` also accepts numbers. -/
inductive PostedAgo where
  | s (v : String)
  | n (v : Nat)
deriving Repr, DecidableEq

/-- A scraped job record.  Each field is one key of the Python job dict;
`none` models an absent key or `None` value. -/
structure Job where
  external_id : Option String := none
  job_id : Option String := none
  title : Option String := none
  company : Option String := none
  location : Option String := none
  link : Option String := none
  url : Option String := none
  job_url : Option String := none
  snippet : Option String := none
  description : Option String := none
  source : Option String := none
  discovery_method : Option String := none
  applicants : Option Nat := none
  applicant_count : Option Nat := none
  posted_ago : Option PostedAgo := none
  posted_hours_ago : Option Nat := none
  posted_time : Option String := none
  is_easy_apply : Option Bool := none
  is_active : Option Bool := none
  filter_reason : Option String := none
  filter_passed : Option Bool := none
  validation_tier : Option String := none
  validation_reason : Option String := none
  passes_validation : Option Bool := none
  validation_error : Option String := none
  html_applicants : Option Nat := none
  html_posted_hours_ago : Option Nat := none
  html_is_closed : Option Bool := none
  html_is_reposted : Option Bool := none
  match_score : Option Nat := none
  skills_matched : Option (List String) := none
  skills_missing : Option (List String) := none
  parsed : Option Bool := none
deriving Repr, DecidableEq

/-- Python truthiness of an optional string (`None` and `""` are falsy). -/
def truthyStr : Option String → Bool
  | some s => !s.isEmpty
  | none => false

/-- Normalise an optional string to `some` exactly when truthy. -/
def truthyOpt : Option String → Option String
  | some s => if s.isEmpty then none else some s
  | none => none

/-- Python `x or y` on optional strings. -/
def pyOrStr (x y : Option String) : Option String :=
  match x with
  | some s => if s.isEmpty then y else some s
  | none => y

/-- Python `x or y` on optional numbers (`0` is falsy). -/
def pyOrNat (x y : Option Nat) : Option Nat :=
  match x with
  | some n => if n = 0 then y else some n
  | none => y

/-- `job.get("link") or job.get("job_url", "")`. -/
def Job.linkOrJobUrl (j : Job) : String :=
  match pyOrStr j.link j.job_url with
  | some s => s
  | none => ""

/-- `job.get("posted_ago") or job.get("posted_hours_ago")` (a string is falsy
when empty, a number when zero). -/
def pyOrPosted (x : Option PostedAgo) (y : Option Nat) : Option PostedAgo :=
  match x with
  | some (.s v) => if v.isEmpty then y.map .n else some (.s v)
  | some (.n v) => if v = 0 then y.map .n else some (.n v)
  | none => y.map .n

end JobScraper

namespace JobScraper.Filters

open JobScraper

/-- Regex `no longer accepting`. -/
def closedPat1 : Matcher := litS "no longer accepting"

/-- Regex `applications?\s+(are\s+)?closed`. -/
def closedPat2 : Matcher :=
  pall [litS "application", poptChar 's', pmany1 isWs,
        popt (pall [litS "are", pmany1 isWs]), litS "closed"]

/-- Regex `(this\s+)?job\s+(is\s+)?no longer available`. -/
def closedPat3 : Matcher :=
  pall [popt (pall [litS "this", pmany1 isWs]), litS "job", pmany1 isWs,
        popt (pall [litS "is", pmany1 isWs]), litS "no longer available"]

/-- Regex `posting\s+(has\s+)?expired`. -/
def closedPat4 : Matcher :=
  pall [litS "posting", pmany1 isWs, popt (pall [litS "has", pmany1 isWs]),
        litS "expired"]

/-- Regex `plus\s+d.applications?\s+accept[ée]es` (French). -/
def closedPat5 : Matcher :=
  pall [litS "plus", pmany1 isWs, litS "d", panyChar, litS "application",
        poptChar 's', pmany1 isWs, litS "accept", poneOf ['é', 'e'], litS "es"]

/-- Regex `candidatures?\s+ferm[ée]es` (French). -/
def closedPat6 : Matcher :=
  pall [litS "candidature", poptChar 's', pmany1 isWs, litS "ferm",
        poneOf ['é', 'e'], litS "es"]

/-- Regex `ya no acepta` (Spanish). -/
def closedPat7 : Matcher := litS "ya no acepta"

/-- `CLOSED_PATTERNS` from `filters.py`. -/
def CLOSED_PATTERNS : List Matcher :=
  [closedPat1, closedPat2, closedPat3, closedPat4, closedPat5, closedPat6,
   closedPat7]

/-- Regex `reposted\s+\d+\s*(day|week|month|year)s?\s*ago`. -/
def repostedPat1 : Matcher :=
  pall [litS "reposted", pmany1 isWs, pmany1 Char.isDigit, pmany0 isWs,
        palt [litS "day", litS "week", litS "month", litS "year"],
        poptChar 's', pmany0 isWs, litS "ago"]

/-- Regex `repost[ée]` (French). -/
def repostedPat2 : Matcher := pall [litS "repost", poneOf ['é', 'e']]

/-- Regex `reposted`. -/
def repostedPat3 : Matcher := litS "reposted"

/-- Regex `republished`. -/
def repostedPat4 : Matcher := litS "republished"

/-- `REPOSTED_PATTERNS` from `filters.py`. -/
def REPOSTED_PATTERNS : List Matcher :=
  [repostedPat1, repostedPat2, repostedPat3, repostedPat4]

/-- The `for pattern in CLOSED_PATTERNS: if re.search(...)` loop, over
already-lowercased text. -/
def detectClosedLower (t : List Char) : Bool :=
  CLOSED_PATTERNS.any (fun m => searchB m t)

/-- The `for pattern in REPOSTED_PATTERNS: if re.search(...)` loop, over
already-lowercased text. -/
def detectRepostedLower (t : List Char) : Bool :=
  REPOSTED_PATTERNS.any (fun m => searchB m t)

/-- Regex `(?:over|plus de|\+)\s*(\d+(?:,\d+)?)\s*(?:applicants?|candidats?|candidatures?)`
anchored at the front of `cs`; returns the captured number. -/
def overPatternAt (cs : List Char) : Option Nat := do
  let r1 ← palt [litS "over", litS "plus de", litS "+"] cs
  let r2 := r1.dropWhile isWs
  let (n, r3) ← numComma r2
  let r4 := r3.dropWhile isWs
  let _ ← palt [pall [litS "applicant", poptChar 's'],
                pall [litS "candidat", poptChar 's'],
                pall [litS "candidature", poptChar 's']] r4
  pure n

/-- Regex `(\d+(?:,\d+)?)\+\s*(?:applicants?|candidats?|candidatures?)?`
anchored at the front of `cs`. -/
def plusPatternAt (cs : List Char) : Option Nat := do
  let (n, r1) ← numComma cs
  let r2 ← litS "+" r1
  let r3 := r2.dropWhile isWs
  let _ ← popt (palt [pall [litS "applicant", poptChar 's'],
                      pall [litS "candidat", poptChar 's'],
                      pall [litS "candidature", poptChar 's']]) r3
  pure n

/-- Regex `(\d+(?:,\d+)?)\s*(?:applicants?|candidats?|candidatures?|postulantes?)`
anchored at the front of `cs`. -/
def standardPatternAt (cs : List Char) : Option Nat := do
  let (n, r1) ← numComma cs
  let r2 := r1.dropWhile isWs
  let _ ← palt [pall [litS "applicant", poptChar 's'],
                pall [litS "candidat", poptChar 's'],
                pall [litS "candidature", poptChar 's'],
                pall [litS "postulante", poptChar 's']] r2
  pure n

/-- `parse_applicant_count` from `filters.py`. -/
def parse_applicant_count (text : String) : Option Nat :=
  if text.isEmpty then none
  else
    let t := pyLower text
    if searchB (litS "early applicant") t || searchB (litS "be among the first") t
    then some 0
    else
      match searchSome overPatternAt t with
      | some n => some (n + 1)
      | none =>
        match searchSome plusPatternAt t with
        | some n => some (n + 1)
        | none => searchSome standardPatternAt t

/-- Regex `(\d+)\s*(hour|day|week|month)s?\s*ago` anchored at the front of
`cs`; returns hours using the multipliers `{hour: 1, day: 24, week: 168,
month: 720}`. -/
def postedPatternAt (cs : List Char) : Option Nat := do
  let (n, r1) ← numPlain cs
  let r2 := r1.dropWhile isWs
  let (mult, r3) ←
    match litS "hour" r2 with
    | some r => some (1, r)
    | none =>
      match litS "day" r2 with
      | some r => some (24, r)
      | none =>
        match litS "week" r2 with
        | some r => some (168, r)
        | none =>
          match litS "month" r2 with
          | some r => some (720, r)
          | none => none
  let r4 ← poptChar 's' r3
  let r5 := r4.dropWhile isWs
  let _ ← litS "ago" r5
  pure (n * mult)

/-- `parse_posted_time` from `filters.py`. -/
def parse_posted_time (text : String) : Option Nat :=
  if text.isEmpty then none
  else searchSome postedPatternAt (pyLower text)

/-- `days_to_linkedin_param` from `filters.py`. -/
def days_to_linkedin_param (days : Int) : String :=
  let days := if days ≤ 0 then 1 else days
  let days := if days > 30 then 30 else days
  "r" ++ toString (days * 86400)

/-- `job_passes_filters` from `filters.py`. -/
def job_passes_filters (job : Job) (max_applicants : Nat := 100)
    (max_hours_old : Nat := 168) : Bool × String :=
  let applicants := pyOrNat job.applicants job.applicant_count
  let applicantFail : Option (Bool × String) :=
    match applicants with
    | some a =>
      if a > max_applicants then some (false, "too_many_applicants:" ++ toString a)
      else none
    | none => none
  match applicantFail with
  | some r => r
  | none =>
    let posted := pyOrPosted job.posted_ago job.posted_hours_ago
    let postedFail : Option (Bool × String) :=
      match posted with
      | some (.s v) =>
        match parse_posted_time v with
        | some hours =>
          if hours > max_hours_old then
            some (false, "too_old:" ++ toString hours ++ "h")
          else none
        | none => none
      | some (.n v) =>
        if v > max_hours_old then some (false, "too_old:" ++ toString v ++ "h")
        else none
      | none => none
    match postedFail with
    | some r => r
    | none =>
      if job.is_active = some false then (false, "job_closed")
      else (true, "passed")

end JobScraper.Filters

namespace JobScraper.GuestApi

open JobScraper

/-- `EXPERIENCE_LEVEL_CODES` from `linkedin_guest_api.py`. -/
def EXPERIENCE_LEVEL_CODES : List (String × String) :=
  [("internship", "1"), ("entry", "2"), ("associate", "3"),
   ("mid-senior", "4"), ("director", "5"), ("executive", "6")]

/-- `JOB_TYPE_CODES` from `linkedin_guest_api.py`. -/
def JOB_TYPE_CODES : List (String × String) :=
  [("full-time", "F"), ("part-time", "P"), ("contract", "C"),
   ("temporary", "T"), ("internship", "I"), ("volunteer", "V"),
   ("other", "O")]

/-- `WORKPLACE_TYPE_CODES` from `linkedin_guest_api.py`. -/
def WORKPLACE_TYPE_CODES : List (String × String) :=
  [("on-site", "1"), ("remote", "2"), ("hybrid", "3")]

/-- `TIME_FILTERS` from `linkedin_guest_api.py`: day keys to seconds. -/
def TIME_FILTERS : List (Nat × Nat) :=
  [(1, 86400), (3, 259200), (7, 604800), (14, 1209600), (30, 2592000)]

/-- The facet translation used for `f_E`, `f_JT` and `f_WT`:
`codes = [MAP.get(v.lower()) for v in values]; codes = [c for c in codes if c];
",".join(codes)`, guarded by the truthiness of the input list. -/
def facetParam (codesMap : List (String × String)) :
    Option (List String) → Option String
  | none => none
  | some vs =>
    if vs.isEmpty then none
    else
      let codes := vs.filterMap (fun v => codesMap.lookup (String.mk (pyLower v)))
      if codes.isEmpty then none
      else some (String.intercalate "," codes)

/-- The query-parameter assembly of `LinkedInGuestAPI._build_search_url`
(the `urlencode` serialisation is left out; the map of parameters is the
object of interest). -/
def build_search_url_params (keywords location : String) (start : Nat)
    (posted_within_days : Nat) (experience_levels job_types workplace_types :
    Option (List String)) (easy_apply : Bool) : List (String × String) :=
  let params := [("keywords", keywords), ("location", location),
                 ("start", toString start), ("sortBy", "DD")]
  let params := params ++
    (match (if posted_within_days ≠ 0 then TIME_FILTERS.lookup posted_within_days
            else none) with
     | some secs => [("f_TPR", "r" ++ toString secs)]
     | none => [])
  let params := params ++
    (match facetParam EXPERIENCE_LEVEL_CODES experience_levels with
     | some v => [("f_E", v)]
     | none => [])
  let params := params ++
    (match facetParam JOB_TYPE_CODES job_types with
     | some v => [("f_JT", v)]
     | none => [])
  let params := params ++
    (match facetParam WORKPLACE_TYPE_CODES workplace_types with
     | some v => [("f_WT", v)]
     | none => [])
  if easy_apply then params ++ [("f_AL", "true")] else params

end JobScraper.GuestApi

namespace JobScraper.Security

open JobScraper

/-- `RATE_LIMIT_REQUESTS` from `security.py`. -/
def RATE_LIMIT_REQUESTS : Nat := 100

/-- `RATE_LIMIT_WINDOW` (seconds) from `security.py`. -/
def RATE_LIMIT_WINDOW : Nat := 60

/-- `SCRAPER_RATE_LIMIT` from `security.py`. -/
def SCRAPER_RATE_LIMIT : Nat := 10

/-- `RateLimiter._clean_old_requests`: keep the timestamps inside the
current window. -/
def clean_old_requests (ts : List Nat) (current window : Nat) : List Nat :=
  ts.filter (fun t => current - t < window)

/-- `RateLimiter.is_rate_limited`: returns the verdict and the updated
timestamp list for the client. -/
def is_rate_limited (ts : List Nat) (now : Nat)
    (max_requests : Nat := RATE_LIMIT_REQUESTS)
    (window : Nat := RATE_LIMIT_WINDOW) : Bool × List Nat :=
  let ts := clean_old_requests ts now window
  if max_requests ≤ ts.length then (true, ts)
  else (false, ts ++ [now])

/-- An HTTP 429 rejection: status code and the `Retry-After` header value. -/
structure RateLimitError where
  status_code : Nat
  retry_after : String
deriving Repr, DecidableEq

/-- `check_rate_limit` from `security.py`: `some` error when rejected. -/
def check_rate_limit (ts : List Nat) (now : Nat) : Option RateLimitError :=
  if (is_rate_limited ts now).1 then
    some { status_code := 429, retry_after := toString RATE_LIMIT_WINDOW }
  else none

/-- `check_scraper_rate_limit` from `security.py`. -/
def check_scraper_rate_limit (ts : List Nat) (now : Nat) :
    Option RateLimitError :=
  if (is_rate_limited ts now SCRAPER_RATE_LIMIT RATE_LIMIT_WINDOW).1 then
    some { status_code := 429, retry_after := toString (RATE_LIMIT_WINDOW * 2) }
  else none

/-- `html.escape` with `quote=True`, as called by `sanitize_string`. -/
def htmlEscape : List Char → List Char
  | [] => []
  | c :: cs =>
    (if c = '&' then "&amp;".toList
     else if c = '<' then "&lt;".toList
     else if c = '>' then "&gt;".toList
     else if c = '"' then "&quot;".toList
     else if c = '\'' then "&#x27;".toList
     else [c]) ++ htmlEscape cs

/-- `sanitize_string` from `security.py`: truncate, HTML-escape, drop NULs. -/
def sanitize_string (value : String) (max_length : Nat := 1000) : String :=
  if value.isEmpty then ""
  else
    String.mk (((htmlEscape (value.toList.take max_length)).filter
      (fun c => c ≠ '\x00')))

/-- `str.strip()` on the whitespace characters of `isWs`. -/
def pyStrip (cs : List Char) : List Char :=
  ((cs.dropWhile isWs).reverse.dropWhile isWs).reverse

/-- The regex `^https?://` under `re.IGNORECASE`. -/
def startsWithHttp (cs : List Char) : Bool :=
  (pall [litS "http", poptChar 's', litS "://"] (cs.map Char.toLower)).isSome

/-- `sanitize_url` from `security.py`. -/
def sanitize_url (url : String) : String :=
  if url.isEmpty then ""
  else
    let u := (pyStrip url.toList).take 2000
    if !startsWithHttp u then ""
    else
      let lower := u.map Char.toLower
      if searchB (litS "javascript:") lower || searchB (litS "data:") lower ||
         searchB (litS "vbscript:") lower || searchB (litS "file:") lower
      then ""
      else String.mk u

/-- The record produced by `sanitize_job_data`. -/
structure SanitizedJob where
  title : String
  company : String
  location : String
  description : String
  link : String
  snippet : String
  applicants : Option Nat
  source : String
  external_id : String
  match_score : Nat
  skills_matched : List String
deriving Repr, DecidableEq

/-- `sanitize_job_data` from `security.py`. -/
def sanitize_job_data (job : Job) : SanitizedJob :=
  let external_id :=
    if !truthyStr job.external_id && truthyStr job.job_id then job.job_id
    else job.external_id
  { title := sanitize_string (job.title.getD "") 200
    company := sanitize_string (job.company.getD "") 100
    location := sanitize_string (job.location.getD "") 100
    description := sanitize_string (job.description.getD "") 5000
    link := sanitize_url (job.link.getD "")
    snippet := sanitize_string (job.snippet.getD "") 500
    applicants :=
      match job.applicants with
      | some n => if n = 0 then none else some n
      | none => none
    source := sanitize_string (job.source.getD "") 50
    external_id := sanitize_string ((pyOrStr external_id (some "")).getD "") 100
    match_score := job.match_score.getD 0
    skills_matched := (job.skills_matched.getD []).map
      (fun s => sanitize_string s 50) }

end JobScraper.Security

namespace JobScraper.HtmlValidator

open JobScraper JobScraper.Filters

/-- The outcome of the HTTP fetch attempted by `validate_job_html`
(`rate_limiter.can_request()` denial, a response with a status code and a
visible-text body, or an exception). -/
inductive HtmlFetch where
  | rateDenied
  | httpStatus (code : Nat) (page_text : String)
  | timeout
  | error (msg : String)
deriving Repr, DecidableEq

/-- The result dict built by `validate_job_html`. -/
structure HtmlResult where
  passes : Bool
  reason : String
  applicants : Option Nat
  posted_hours_ago : Option Nat
  is_closed : Bool
  is_reposted : Bool
deriving Repr, DecidableEq

/-- `validate_job_html` from `html_validator.py` (the BeautifulSoup
visible-text extraction is abstracted into the `page_text` of the fetch
outcome; `BS4_AVAILABLE` is taken to be true). -/
def validate_job_html (fetch : HtmlFetch) (max_applicants : Nat := 100)
    (max_age_hours : Nat := 168) : HtmlResult :=
  match fetch with
  | .rateDenied =>
    { passes := true, reason := "rate_limit_exceeded", applicants := none,
      posted_hours_ago := none, is_closed := false, is_reposted := false }
  | .timeout =>
    { passes := true, reason := "timeout", applicants := none,
      posted_hours_ago := none, is_closed := false, is_reposted := false }
  | .error msg =>
    { passes := true, reason := "error:" ++ String.mk (msg.toList.take 30),
      applicants := none, posted_hours_ago := none, is_closed := false,
      is_reposted := false }
  | .httpStatus code page =>
    if code ≠ 200 then
      { passes := false, reason := "http_" ++ toString code, applicants := none,
        posted_hours_ago := none, is_closed := false, is_reposted := false }
    else
      let page_text := pyLower page
      if detectClosedLower page_text then
        { passes := false, reason := "closed", applicants := none,
          posted_hours_ago := none, is_closed := true, is_reposted := false }
      else if detectRepostedLower page_text then
        { passes := false, reason := "reposted", applicants := none,
          posted_hours_ago := none, is_closed := false, is_reposted := true }
      else
        let applicants := parse_applicant_count (String.mk page_text)
        match applicants with
        | some a =>
          if a > max_applicants then
            { passes := false, reason := "too_many_applicants:" ++ toString a,
              applicants := some a, posted_hours_ago := none,
              is_closed := false, is_reposted := false }
          else
            let posted_hours := parse_posted_time (String.mk page_text)
            match posted_hours with
            | some h =>
              if h > max_age_hours then
                { passes := false, reason := "too_old:" ++ toString h ++ "h",
                  applicants := some a, posted_hours_ago := some h,
                  is_closed := false, is_reposted := false }
              else
                { passes := true, reason := "passed", applicants := some a,
                  posted_hours_ago := some h, is_closed := false,
                  is_reposted := false }
            | none =>
              { passes := true, reason := "passed", applicants := some a,
                posted_hours_ago := none, is_closed := false,
                is_reposted := false }
        | none =>
          let posted_hours := parse_posted_time (String.mk page_text)
          match posted_hours with
          | some h =>
            if h > max_age_hours then
              { passes := false, reason := "too_old:" ++ toString h ++ "h",
                applicants := none, posted_hours_ago := some h,
                is_closed := false, is_reposted := false }
            else
              { passes := true, reason := "passed", applicants := none,
                posted_hours_ago := some h, is_closed := false,
                is_reposted := false }
          | none =>
            { passes := true, reason := "passed", applicants := none,
              posted_hours_ago := none, is_closed := false,
              is_reposted := false }

/-- A per-job environment for `validate_jobs_html`: either the fetch seen by
the job's validation task, or an exception surfaced through
`asyncio.gather(..., return_exceptions=True)`. -/
inductive Tier2Outcome where
  | ok (fetch : HtmlFetch)
  | taskError (msg : String)
deriving Repr, DecidableEq

/-- `validate_with_semaphore` inside `validate_jobs_html`
(`skip_validated = True`, the default used by the orchestrator). -/
def validate_with_semaphore (job : Job) (fetch : HtmlFetch)
    (max_applicants max_age_hours : Nat) : Job × Bool :=
  if truthyStr job.validation_tier then (job, job.passes_validation.getD true)
  else
    let url := job.linkOrJobUrl
    if url.isEmpty then (job, true)
    else
      let result := validate_job_html fetch max_applicants max_age_hours
      ({ job with
          html_applicants := result.applicants
          html_posted_hours_ago := result.posted_hours_ago
          html_is_closed := some result.is_closed
          html_is_reposted := some result.is_reposted
          validation_tier := some "html"
          validation_reason := some result.reason }, result.passes)

/-- `validate_jobs_html` from `html_validator.py`: the list of jobs that
passed (the `stats` counters are not modelled).  Task exceptions drop the
job from the output, as in the `isinstance(result, Exception)` branch. -/
def validate_jobs_html (jobs : List Job) (outcomes : List Tier2Outcome)
    (max_applicants : Nat) (max_age_days : Nat) : List Job :=
  let max_age_hours := max_age_days * 24
  (jobs.zip outcomes).filterMap (fun jo =>
    match jo.2 with
    | .taskError _ => none
    | .ok fetch =>
      let (j, passed) := validate_with_semaphore jo.1 fetch max_applicants
        max_age_hours
      if passed then some j else none)

end JobScraper.HtmlValidator

namespace JobScraper.Validator

open JobScraper

/-- A per-job environment for the Playwright validator: a task-level
exception, a rate-limiter denial, a navigation error, or the signals
extracted from the rendered page (`_extract_applicants`,
`_check_job_active`, `_check_reposted`, `_extract_posted_time`). -/
inductive PwOutcome where
  | taskError (msg : String)
  | rateDenied
  | navError (msg : String)
  | page (applicants : Option Nat) (is_active : Bool) (is_reposted : Bool)
      (posted_hours : Option Nat)
deriving Repr, DecidableEq

/-- The result dict built by `JobValidator._validate_job_internal`. -/
structure PwResult where
  applicant_count : Option Nat
  is_active : Bool
  is_reposted : Bool
  posted_hours_ago : Option Nat
  passes_filters : Bool
  failure_reason : Option String
deriving Repr, DecidableEq

/-- `JobValidator._validate_job_internal` from `validator.py` (page
extraction abstracted into the outcome; `taskError` is handled by the
caller). -/
def validate_job_internal (out : PwOutcome)
    (max_applicants max_age_days : Nat) : PwResult :=
  match out with
  | .taskError _ =>
    { applicant_count := none, is_active := true, is_reposted := false,
      posted_hours_ago := none, passes_filters := false,
      failure_reason := none }
  | .rateDenied =>
    { applicant_count := none, is_active := true, is_reposted := false,
      posted_hours_ago := none, passes_filters := false,
      failure_reason := some "rate_limit_exceeded" }
  | .navError msg =>
    { applicant_count := none, is_active := true, is_reposted := false,
      posted_hours_ago := none, passes_filters := false,
      failure_reason := some ("error:" ++ String.mk (msg.toList.take 50)) }
  | .page applicants is_active is_reposted posted_hours =>
    let max_hours := max_age_days * 24
    if !is_active then
      { applicant_count := applicants, is_active := is_active,
        is_reposted := is_reposted, posted_hours_ago := posted_hours,
        passes_filters := false, failure_reason := some "job_closed" }
    else if is_reposted then
      { applicant_count := applicants, is_active := is_active,
        is_reposted := is_reposted, posted_hours_ago := posted_hours,
        passes_filters := false, failure_reason := some "reposted" }
    else if (match applicants with
             | some n => decide (n > max_applicants)
             | none => false) then
      { applicant_count := applicants, is_active := is_active,
        is_reposted := is_reposted, posted_hours_ago := posted_hours,
        passes_filters := false,
        failure_reason := some ("too_many_applicants:" ++
          toString (applicants.getD 0)) }
    else if (match posted_hours with
             | some h => decide (h > max_hours)
             | none => false) then
      { applicant_count := applicants, is_active := is_active,
        is_reposted := is_reposted, posted_hours_ago := posted_hours,
        passes_filters := false,
        failure_reason := some ("too_old:" ++
          toString (posted_hours.getD 0) ++ "h") }
    else
      { applicant_count := applicants, is_active := is_active,
        is_reposted := is_reposted, posted_hours_ago := posted_hours,
        passes_filters := true, failure_reason := none }

/-- `JobValidator.validate_jobs` from `validator.py`: validate the first
`max_to_validate` jobs against the given outcomes (the `zip(to_validate,
results)` of the source truncates at the shorter list), keep those whose
result passes, keep jobs whose task raised, and append the unvalidated
tail.  Note that the result's `is_reposted` is not merged back into the
job. -/
def validate_jobs (jobs : List Job) (outcomes : List PwOutcome)
    (max_applicants max_age_days max_to_validate : Nat) : List Job :=
  let to_validate := jobs.take max_to_validate
  let validated := (to_validate.zip outcomes).filterMap (fun jo =>
    match jo.2 with
    | .taskError msg => some { jo.1 with validation_error := some msg }
    | out =>
      let result := validate_job_internal out max_applicants max_age_days
      let j := { jo.1 with
        applicant_count := result.applicant_count
        is_active := some result.is_active
        posted_hours_ago := result.posted_hours_ago
        passes_validation := some result.passes_filters
        validation_reason := result.failure_reason }
      if result.passes_filters then some j else none)
  validated ++ jobs.drop max_to_validate

end JobScraper.Validator

namespace JobScraper.Orchestrator

open JobScraper JobScraper.HtmlValidator JobScraper.Validator

/-- The RapidAPI loop of `ScrapingOrchestrator._merge_jobs`: a job enters
through the id branch (recording only its id) or, failing that, through the
URL branch (recording only its URL).  Returns the admitted jobs and the
final `seen_ids`/`seen_urls` sets. -/
def merge_rapidapi (jobs : List Job) (seen_ids seen_urls : List String) :
    List Job × List String × List String :=
  match jobs with
  | [] => ([], seen_ids, seen_urls)
  | job :: rest =>
    let job_id := truthyOpt (pyOrStr job.external_id job.job_id)
    let url := job.linkOrJobUrl
    match job_id with
    | some jid =>
      if seen_ids.contains jid then
        if !url.isEmpty && !seen_urls.contains url then
          let (tail, si, su) := merge_rapidapi rest seen_ids (url :: seen_urls)
          ({ job with source := some "rapidapi" } :: tail, si, su)
        else merge_rapidapi rest seen_ids seen_urls
      else
        let (tail, si, su) := merge_rapidapi rest (jid :: seen_ids) seen_urls
        ({ job with source := some "rapidapi" } :: tail, si, su)
    | none =>
      if !url.isEmpty && !seen_urls.contains url then
        let (tail, si, su) := merge_rapidapi rest seen_ids (url :: seen_urls)
        ({ job with source := some "rapidapi" } :: tail, si, su)
      else merge_rapidapi rest seen_ids seen_urls

/-- The discovered-jobs loop of `ScrapingOrchestrator._merge_jobs`: skip a
job whose truthy `external_id` or truthy `link` was already seen, otherwise
record both and admit it. -/
def merge_discovered (jobs : List Job) (seen_ids seen_urls : List String) :
    List Job :=
  match jobs with
  | [] => []
  | job :: rest =>
    let job_id := truthyOpt job.external_id
    let url := job.link.getD ""
    if (match job_id with
        | some jid => seen_ids.contains jid
        | none => false) then
      merge_discovered rest seen_ids seen_urls
    else if !url.isEmpty && seen_urls.contains url then
      merge_discovered rest seen_ids seen_urls
    else
      let seen_ids' := match job_id with
        | some jid => jid :: seen_ids
        | none => seen_ids
      let seen_urls' := if !url.isEmpty then url :: seen_urls else seen_urls
      { job with source := some "duckduckgo" } ::
        merge_discovered rest seen_ids' seen_urls'

/-- `ScrapingOrchestrator._merge_jobs` from `orchestrator.py`. -/
def merge_jobs (discovered rapidapi : List Job) : List Job :=
  match merge_rapidapi rapidapi [] [] with
  | (rjobs, seen_ids, seen_urls) =>
    rjobs ++ merge_discovered discovered seen_ids seen_urls

/-- The outcome of one `gemini_parser.enrich_job` call: either the parse
failed (score forced to 0) or it produced a score and skill lists. -/
inductive EnrichOutcome where
  | failed
  | enriched (score : Nat) (matched missing : List String)
deriving Repr, DecidableEq

/-- The `{**job, ...}` merge performed by `enrich_job` in `parser.py`:
only the enrichment fields change. -/
def apply_enrich (job : Job) (out : EnrichOutcome) : Job :=
  match out with
  | .failed =>
    { job with parsed := some false, match_score := some 0,
               skills_matched := some [] }
  | .enriched score matched missing =>
    { job with parsed := some true, match_score := some score,
               skills_matched := some matched, skills_missing := some missing }

/-- The Gemini enrichment loop of `run_scrape` (step 4): jobs whose
description-or-snippet text is 50 characters or shorter get
`match_score = 0`, the others are enriched. -/
def enrich_loop (jobs : List Job) (outs : List EnrichOutcome) : List Job :=
  (jobs.zip outs).map (fun jo =>
    let text := (pyOrStr jo.1.description (some (jo.1.snippet.getD ""))).getD ""
    if 50 < text.length then apply_enrich jo.1 jo.2
    else { jo.1 with match_score := some 0, skills_matched := some [] })

/-- Stable insertion of a job into a list sorted by descending
`match_score` (a new job goes after existing jobs with the same score). -/
def insertByScoreDesc (j : Job) : List Job → List Job
  | [] => [j]
  | k :: ks =>
    if k.match_score.getD 0 < j.match_score.getD 0 then j :: k :: ks
    else k :: insertByScoreDesc j ks

/-- `sorted(jobs, key=lambda x: x.get("match_score", 0), reverse=True)`:
a stable descending sort. -/
def sortByScoreDesc (jobs : List Job) : List Job :=
  jobs.foldl (fun acc j => insertByScoreDesc j acc) []

/-- The job-list dataflow of `ScrapingOrchestrator.run_scrape` from the
merge step onward: tier-2 HTML validation when `validate_html`, tier-3
Playwright validation when `validate_jobs_flag` and Playwright is
available, then Gemini enrichment over the first `max_jobs` jobs (when
Gemini is configured and the user supplied skills), then the
match-score sort.  The network interactions of each stage are abstracted
into the outcome lists. -/
def run_scrape_jobs (discovered rapidapi : List Job)
    (validate_html : Bool) (t2outs : List Tier2Outcome)
    (validate_jobs_flag playwright_available : Bool)
    (t3outs : List PwOutcome)
    (use_gemini : Bool) (user_skills : List String)
    (enrichOuts : List EnrichOutcome) (max_jobs : Nat)
    (posted_within_days : Nat := 7) (max_applicants : Nat := 100)
    (validate_top_n : Nat := 20) : List Job :=
  let all_jobs := merge_jobs discovered rapidapi
  let all_jobs :=
    if validate_html then
      validate_jobs_html all_jobs t2outs max_applicants posted_within_days
    else all_jobs
  let all_jobs :=
    if validate_jobs_flag && playwright_available then
      Validator.validate_jobs all_jobs t3outs max_applicants
        posted_within_days validate_top_n
    else all_jobs
  let jobs :=
    if use_gemini && !user_skills.isEmpty then
      enrich_loop (all_jobs.take max_jobs) enrichOuts
    else all_jobs.take max_jobs
  sortByScoreDesc jobs

end JobScraper.Orchestrator

namespace JobScraper.Router

open JobScraper JobScraper.Security

/-- One entry of the `SCRAPE_RUNS` in-memory store (timestamps are
abstract ticks; the `keywords`/`location` echo fields are kept). -/
structure ScrapeRun where
  run_id : String
  keywords : String := ""
  location : String := ""
  status : String
  jobs_found : Nat := 0
  progress : Nat := 0
  started_at : Nat := 0
  completed_at : Option Nat := none
  error : Option String := none
  jobs : List SanitizedJob := []
  user_id : Option String := none
deriving Repr, DecidableEq

/-- The `SCRAPE_RUNS` dict: an association list keyed by run id. -/
abbrev ScrapeRuns := List (String × ScrapeRun)

/-- Dictionary lookup `SCRAPE_RUNS[run_id]` / `run_id in SCRAPE_RUNS`. -/
def findRun (runs : ScrapeRuns) (rid : String) : Option ScrapeRun :=
  runs.lookup rid

/-- Mutation of an existing entry, `SCRAPE_RUNS[run_id][...] = ...`. -/
def updateRun (runs : ScrapeRuns) (rid : String) (f : ScrapeRun → ScrapeRun) :
    ScrapeRuns :=
  runs.map (fun p => if p.1 = rid then (p.1, f p.2) else p)

/-- The `SCRAPE_RUNS[run_id] = {...}` insertion in `start_scrape`, creating
a `QUEUED` run owned by the caller. -/
def start_scrape (runs : ScrapeRuns) (rid keywords location : String)
    (user_id : Option String) (now : Nat) : ScrapeRuns :=
  runs ++ [(rid, { run_id := rid, keywords := keywords, location := location,
                   status := "QUEUED", jobs_found := 0, progress := 0,
                   started_at := now, completed_at := none, error := none,
                   jobs := [], user_id := user_id })]

/-- The first two assignments of `run_scrape_job`:
`status = "RUNNING"; progress = 10`. -/
def run_scrape_begin (runs : ScrapeRuns) (rid : String) : ScrapeRuns :=
  updateRun runs rid (fun r => { r with status := "RUNNING", progress := 10 })

/-- The success epilogue of `run_scrape_job`: `status = "COMPLETED"`,
`progress = 100`, jobs stored, `completed_at` set. -/
def run_scrape_success (runs : ScrapeRuns) (rid : String)
    (jobs : List SanitizedJob) (now : Nat) : ScrapeRuns :=
  updateRun runs rid (fun r =>
    { r with status := "COMPLETED", progress := 100,
             jobs_found := jobs.length, jobs := jobs,
             completed_at := some now })

/-- The `except` epilogue of `run_scrape_job`: `status = "FAILED"`,
`error = "Scrape failed"`, `completed_at` set. -/
def run_scrape_failure (runs : ScrapeRuns) (rid : String) (now : Nat) :
    ScrapeRuns :=
  updateRun runs rid (fun r =>
    { r with status := "FAILED", error := some "Scrape failed",
             completed_at := some now })

/-- Response of `GET /scraper/status/{run_id}`: either the not-found body
`{"run_id": ..., "status": "NOT_FOUND", "error": "Run not found"}` or the
run itself. -/
inductive StatusResponse where
  | notFound (run_id : String)
  | run (r : ScrapeRun)
deriving Repr, DecidableEq

/-- `get_scrape_status` from `routers/scraper.py`: unknown id and
foreign-owner id return the same not-found body. -/
def get_scrape_status (runs : ScrapeRuns) (rid : String)
    (user_id : Option String) : StatusResponse :=
  match findRun runs rid with
  | none => .notFound rid
  | some run =>
    if run.user_id ≠ user_id then .notFound rid
    else .run run

/-- Response of `POST /scraper/cancel/{run_id}`: the not-found body
`{"error": "Run not found", "run_id": ...}` or the success body
`{"message": "Scrape cancelled", "run_id": ...}`. -/
inductive CancelResponse where
  | notFound (run_id : String)
  | cancelled (run_id : String)
deriving Repr, DecidableEq

/-- `cancel_scrape` from `routers/scraper.py`: on an owned run it sets
`status = "CANCELLED"` and `completed_at`, with no check of the current
status. -/
def cancel_scrape (runs : ScrapeRuns) (rid : String) (user_id : Option String)
    (now : Nat) : CancelResponse × ScrapeRuns :=
  match findRun runs rid with
  | none => (.notFound rid, runs)
  | some run =>
    if run.user_id ≠ user_id then (.notFound rid, runs)
    else
      (.cancelled rid, updateRun runs rid (fun r =>
        { r with status := "CANCELLED", completed_at := some now }))

/-- The operations that touch a run's status, in the order they can occur
at runtime: run creation, the background task's begin/success/failure
writes, and the cancel endpoint. -/
inductive ScrapeEvent where
  | start (rid keywords location : String) (user : Option String) (now : Nat)
  | bgBegin (rid : String)
  | bgComplete (rid : String) (jobs : List SanitizedJob) (now : Nat)
  | bgFail (rid : String) (now : Nat)
  | cancel (rid : String) (caller : Option String) (now : Nat)
deriving Repr

/-- Apply one event to the registry. -/
def applyEvent (runs : ScrapeRuns) : ScrapeEvent → ScrapeRuns
  | .start rid keywords location user now =>
    start_scrape runs rid keywords location user now
  | .bgBegin rid => run_scrape_begin runs rid
  | .bgComplete rid jobs now => run_scrape_success runs rid jobs now
  | .bgFail rid now => run_scrape_failure runs rid now
  | .cancel rid caller now => (cancel_scrape runs rid caller now).2

/-- Apply a sequence of events. -/
def applyEvents (runs : ScrapeRuns) (es : List ScrapeEvent) : ScrapeRuns :=
  es.foldl applyEvent runs

/-- The status a run currently shows. -/
def statusOf (runs : ScrapeRuns) (rid : String) : Option String :=
  (findRun runs rid).map ScrapeRun.status

/-- The `{"status": "OK", ...}` body returned by `quick_search` in
`routers/scraper.py`. -/
inductive RespVal where
  | s (v : String)
  | n (v : Nat)
  | jobs (v : List SanitizedJob)
deriving Repr, DecidableEq

/-- The response dict literal at the end of `quick_search`.  It is dead
code at runtime — the comprehension above it raises first (see
`quick_search` below) — and it contains no search-method key. -/
def quick_search_response (keywords location : String)
    (sanitized_jobs : List SanitizedJob) : List (String × RespVal) :=
  [("status", .s "OK"), ("keywords", .s keywords), ("location", .s location),
   ("jobs_found", .n sanitized_jobs.length), ("jobs", .jobs sanitized_jobs)]

/-- The value `jobs` is bound to in `quick_search`: calling an `async def`
without `await` yields the coroutine object, not its result. -/
inductive PyAwaitable where
  | coroutine
  | result (jobs : List Job)
deriving Repr, DecidableEq

/-- The binding `jobs = job_discovery.search_linkedin_jobs(...)` in
`quick_search`: `search_linkedin_jobs` is `async def` (`discovery.py`) and
the call site does not await it, so the bound value is always the
coroutine object. -/
def search_linkedin_jobs_unawaited : PyAwaitable := .coroutine

/-- Python iteration over that value, as in
`[sanitize_job_data(job) for job in jobs]`: a list yields its elements, a
coroutine object is not iterable and raises `TypeError`. -/
def pyIterateJobs : PyAwaitable → Except String (List Job)
  | .coroutine => .error "TypeError: 'coroutine' object is not iterable"
  | .result jobs => .ok jobs

/-- The body of `quick_search` from `routers/scraper.py` after validation
and logging: bind the un-awaited discovery call, iterate it in the
sanitizing comprehension, then build the response dict.  The iteration
raises on every request, so the `.ok` branch is unreachable. -/
def quick_search (keywords location : String) :
    Except String (List (String × RespVal)) := do
  let jobs := search_linkedin_jobs_unawaited
  let jobList ← pyIterateJobs jobs
  let sanitized_jobs := jobList.map Security.sanitize_job_data
  pure (quick_search_response keywords location sanitized_jobs)

end JobScraper.Router

namespace JobScraper

open JobScraper.Security JobScraper.Router JobScraper.Orchestrator
open JobScraper.HtmlValidator JobScraper.Validator

/-- A job record carrying no affirmative closed or reposted verdict: this
is the `isClosed = true` / `isReposted = true` reading over the concrete
fields the pipeline uses (`html_is_closed`/`html_is_reposted` from tier 2,
`is_active = false` from tier 3). -/
def Job.NeverMarkedClosed (j : Job) : Prop :=
  j.html_is_closed ≠ some true ∧ j.html_is_reposted ≠ some true ∧
    j.is_active ≠ some false

instance (j : Job) : Decidable j.NeverMarkedClosed := by
  unfold Job.NeverMarkedClosed; infer_instance

/-- Two job records with different truthy external ids and different truthy
links — the uniqueness relation of the dedup claim. -/
def DistinctIdAndUrl (a b : Job) : Prop :=
  (∀ v, truthyOpt a.external_id = some v → truthyOpt b.external_id ≠ some v)
  ∧ (∀ u, truthyOpt a.link = some u → truthyOpt b.link ≠ some u)

/-- Surface form `"N applicants"`. -/
def formatApplicants (n : Nat) : String := toString n ++ " applicants"

/-- Surface form `"N candidats"` (French). -/
def formatCandidats (n : Nat) : String := toString n ++ " candidats"

/-- Surface form `"N candidaturas"` (Spanish/Portuguese). -/
def formatCandidaturas (n : Nat) : String := toString n ++ " candidaturas"

/-- Surface form `"N postulantes"` (Spanish). -/
def formatPostulantes (n : Nat) : String := toString n ++ " postulantes"

/-- Surface form `"Over N applicants"`, which denotes the count `N + 1`. -/
def formatOver (n : Nat) : String := "Over " ++ toString n ++ " applicants"

/-- Surface form `"N+ applicants"`, which denotes the count `N + 1`. -/
def formatPlus (n : Nat) : String := toString n ++ "+ applicants"

/-- A RapidAPI job with external id `A` and one URL. -/
def rapidJobA : Job :=
  { external_id := some "A", link := some "https://x.example/jobs/1" }

/-- A RapidAPI job with the same external id `A` and a different URL. -/
def rapidJobB : Job :=
  { external_id := some "A", link := some "https://x.example/jobs/2" }

/-- A run owned by Bob, used to probe cross-owner access. -/
def bobRun : Router.ScrapeRun :=
  { run_id := "r1", keywords := "engineer", status := "RUNNING",
    progress := 10, user_id := some "bob" }

/-- A job whose snippet said `"Be an early applicant"`: `applicants = 0`. -/
def zeroApplicantJob : Job :=
  { title := some "Data Engineer",
    link := some "https://www.linkedin.com/jobs/view/9",
    snippet := some "Be an early applicant", applicants := some 0 }

/-- A discovery-tier source job for the pipeline instantiation. -/
def ddgSourceJob : Job :=
  { external_id := some "linkedin-123"
    title := some "Software Engineer"
    link := some "https://www.linkedin.com/jobs/view/123"
    snippet := some "Software Engineer at Acme - 10 applicants - 2 days ago" }

/-- `ddgSourceJob` after the merge, tier-2 and tier-3 stages of the
pipeline instantiation used in the witness. -/
def ddgPipelineResult : Job :=
  { ddgSourceJob with
      source := some "duckduckgo"
      applicant_count := some 10
      posted_hours_ago := some 48
      is_active := some true
      validation_tier := some "html"
      validation_reason := none
      passes_validation := some true
      html_applicants := some 10
      html_posted_hours_ago := some 48
      html_is_closed := some false
      html_is_reposted := some false }

end JobScraper

namespace JobScraper

open JobScraper.Filters JobScraper.Security JobScraper.Router
open JobScraper.Orchestrator JobScraper.HtmlValidator JobScraper.Validator

/-- C1: a run cancelled by its owner is later overwritten to `COMPLETED`
by the background task, and cancel rewrites an already-terminal run:
the queued→running→terminal lifecycle of the claim is violated. -/
theorem cancelled_run_later_marked_completed :
    statusOf (applyEvents [] [.start "r1" "engineer" "UK" (some "alice") 0,
      .cancel "r1" (some "alice") 1]) "r1" = some "CANCELLED"
    ∧ statusOf (applyEvents [] [.start "r1" "engineer" "UK" (some "alice") 0,
      .cancel "r1" (some "alice") 1, .bgBegin "r1",
      .bgComplete "r1" [] 2]) "r1" = some "COMPLETED"
    ∧ statusOf (applyEvents [] [.start "r1" "engineer" "UK" (some "alice") 0,
      .bgBegin "r1", .bgComplete "r1" [] 2,
      .cancel "r1" (some "alice") 3]) "r1" = some "CANCELLED" := by
  decide

/-- C5: no quick-search call succeeds — the handler binds the un-awaited
coroutine from the async `search_linkedin_jobs` and iterates it in the
sanitizing comprehension, raising `TypeError` before the return statement
on every request; the response literal it never reaches would not carry a
search-method key either. -/
theorem quick_search_always_raises (kw loc : String) :
    quick_search kw loc
      = .error "TypeError: 'coroutine' object is not iterable"
    ∧ "search_method" ∉ ((quick_search_response kw loc []).map Prod.fst)
    ∧ "searchMethod" ∉ ((quick_search_response kw loc []).map Prod.fst) := by
  refine ⟨rfl, ?_, ?_⟩ <;> simp [quick_search_response]

/-- C6 counterexample: a 429 response does not fail open — the tier-2
validator marks the job failed with reason `http_429`. -/
theorem html_validator_429_fails_closed :
    (validate_job_html (.httpStatus 429 "") 100 168).passes = false
    ∧ (validate_job_html (.httpStatus 429 "") 100 168).reason = "http_429" := by
  decide

/-- C6 amended: every non-200 status, 429 included, yields
`passes = false` with reason `http_<code>`; the fail-open paths are only
the rate-limiter denial, timeouts and transport errors. -/
theorem html_validator_non_200_fails_with_http_code (code : Nat)
    (page : String) (ma mh : Nat) (h : code ≠ 200) :
    validate_job_html (.httpStatus code page) ma mh =
      { passes := false, reason := "http_" ++ toString code,
        applicants := none, posted_hours_ago := none, is_closed := false,
        is_reposted := false }
    ∧ (validate_job_html .rateDenied ma mh).passes = true
    ∧ (validate_job_html .timeout ma mh).passes = true := by
  refine ⟨?_, rfl, rfl⟩
  simp only [validate_job_html]
  rw [if_pos h]

/-- Witness for `html_validator_non_200_fails_with_http_code` at 429. -/
theorem html_validator_non_200_witness :
    validate_job_html (.httpStatus 429 "page") 100 168 =
      { passes := false, reason := "http_429", applicants := none,
        posted_hours_ago := none, is_closed := false, is_reposted := false }
    ∧ (validate_job_html .rateDenied 100 168).passes = true
    ∧ (validate_job_html .timeout 100 168).passes = true :=
  html_validator_non_200_fails_with_http_code 429 "page" 100 168 (by decide)

/-- C8: `parse_applicant_count` on each supported surface form, including
the round trips `parse(format(N)) = N` for `N ∈ {0, 1, 42, 100, 1234}`
(the over/`N+` forms denote `N + 1`, so they represent `N ≥ 1` via
`format(N - 1)`; `0` is representable only by the early-applicant form). -/
theorem parse_applicant_count_surface_forms :
    parse_applicant_count "Be an early applicant" = some 0
    ∧ parse_applicant_count "BE AN EARLY APPLICANT" = some 0
    ∧ parse_applicant_count "Over 100 applicants" = some 101
    ∧ parse_applicant_count "plus de 100 candidats" = some 101
    ∧ parse_applicant_count "100+ applicants" = some 101
    ∧ parse_applicant_count "1,234 applicants" = some 1234
    ∧ parse_applicant_count "45 applicants" = some 45
    ∧ (∀ n ∈ [0, 1, 42, 100, 1234],
        parse_applicant_count (formatApplicants n) = some n
        ∧ parse_applicant_count (formatCandidats n) = some n
        ∧ parse_applicant_count (formatCandidaturas n) = some n
        ∧ parse_applicant_count (formatPostulantes n) = some n)
    ∧ (∀ n ∈ [1, 42, 100, 1234],
        parse_applicant_count (formatOver (n - 1)) = some n
        ∧ parse_applicant_count (formatPlus (n - 1)) = some n) := by
  decide

/-- C9 counterexample: a client who exhausted the stricter
scraper-initiation limit is rejected with `Retry-After: 120`, not the
claimed one-window value of 60 seconds. -/
theorem scraper_rate_limit_retry_after_counterexample :
    check_scraper_rate_limit (List.replicate 10 0) 0
      = some { status_code := 429, retry_after := "120" }
    ∧ (some { status_code := 429, retry_after := "120" } : Option RateLimitError)
      ≠ some { status_code := 429, retry_after := "60" } := by
  decide

/-- C9 amended: the default limiter rejects past 100 requests per window
with `Retry-After: 60`; the scraper limiter rejects past 10 per window
with `Retry-After: 120` (two windows). -/
theorem rate_limit_retry_after_values (ts : List Nat) (now : Nat) :
    (RATE_LIMIT_REQUESTS ≤ (clean_old_requests ts now RATE_LIMIT_WINDOW).length →
      check_rate_limit ts now = some { status_code := 429, retry_after := "60" })
    ∧ ((clean_old_requests ts now RATE_LIMIT_WINDOW).length < RATE_LIMIT_REQUESTS →
      check_rate_limit ts now = none)
    ∧ (SCRAPER_RATE_LIMIT ≤ (clean_old_requests ts now RATE_LIMIT_WINDOW).length →
      check_scraper_rate_limit ts now
        = some { status_code := 429, retry_after := "120" })
    ∧ ((clean_old_requests ts now RATE_LIMIT_WINDOW).length < SCRAPER_RATE_LIMIT →
      check_scraper_rate_limit ts now = none) := by
  have hfst : ∀ m w, (is_rate_limited ts now m w).1
      = decide (m ≤ (clean_old_requests ts now w).length) := by
    intro m w
    by_cases hc : m ≤ (clean_old_requests ts now w).length <;>
      simp [is_rate_limited, hc]
  refine ⟨fun h => ?_, fun h => ?_, fun h => ?_, fun h => ?_⟩
  · unfold check_rate_limit
    rw [hfst, if_pos (decide_eq_true h)]
    rfl
  · unfold check_rate_limit
    rw [hfst, if_neg (by simpa using Nat.not_le.mpr h)]
  · unfold check_scraper_rate_limit
    rw [hfst, if_pos (decide_eq_true h)]
    rfl
  · unfold check_scraper_rate_limit
    rw [hfst, if_neg (by simpa using Nat.not_le.mpr h)]

/-- Witness for `rate_limit_retry_after_values`. -/
theorem rate_limit_retry_after_values_witness :
    check_rate_limit (List.replicate 100 5) 5
      = some { status_code := 429, retry_after := "60" }
    ∧ check_scraper_rate_limit (List.replicate 10 5) 5
      = some { status_code := 429, retry_after := "120" } :=
  ⟨(rate_limit_retry_after_values (List.replicate 100 5) 5).1 (by decide),
   (rate_limit_retry_after_values (List.replicate 10 5) 5).2.2.1 (by decide)⟩

end JobScraper

namespace JobScraper

open JobScraper.Filters JobScraper.Router JobScraper.GuestApi

/-- C10 counterexample: for `postedWithinDays = 2` the Guest API URL (the
primary endpoint) carries no `f_TPR` recency parameter at all, although
the claimed conversion would give `r172800`. -/
theorem guest_api_f_TPR_missing_for_two_days :
    (build_search_url_params "Software Engineer" "UK" 0 2 none none none
      false).lookup "f_TPR" = none
    ∧ (none : Option String) ≠ some "r172800"
    ∧ days_to_linkedin_param 2 = "r172800" := by
  decide

/-- C10 amended: `days_to_linkedin_param` (used for the DuckDuckGo query
hint and the jobs-search URL builder) produces `r<d*86400>` with clamping
(`d ≤ 0 → 1`, `d > 30 → 30`); the Guest API URL builder instead emits
`f_TPR = r<d*86400>` only for `d ∈ {1, 3, 7, 14, 30}` and omits the
parameter for every other day count, with no clamping. -/
theorem recency_param_conversion (dI : Int) (d : Nat) (kw loc : String)
    (start : Nat) (ea : Bool) :
    (1 ≤ dI → dI ≤ 30 → days_to_linkedin_param dI
      = "r" ++ toString (dI * 86400))
    ∧ (dI ≤ 0 → days_to_linkedin_param dI = "r86400")
    ∧ (30 < dI → days_to_linkedin_param dI = "r2592000")
    ∧ (d ∈ [1, 3, 7, 14, 30] →
        (build_search_url_params kw loc start d none none none ea).lookup
          "f_TPR" = some ("r" ++ toString (d * 86400)))
    ∧ (TIME_FILTERS.lookup d = none →
        (build_search_url_params kw loc start d none none none ea).lookup
          "f_TPR" = none) := by
  refine ⟨fun h1 h2 => ?_, fun h => ?_, fun h => ?_, fun h => ?_, fun h => ?_⟩
  · have h1' : ¬ dI ≤ 0 := by omega
    have h2' : ¬ dI > 30 := by omega
    simp [days_to_linkedin_param, h1', h2']
  · have h2' : ¬ (1 : Int) > 30 := by omega
    simp [days_to_linkedin_param, h, h2']
    rfl
  · have h1' : ¬ dI ≤ 0 := by omega
    simp [days_to_linkedin_param, h1', h]
    rfl
  · fin_cases h <;> cases ea <;>
      simp [build_search_url_params, TIME_FILTERS, List.lookup, facetParam]
  · have hd : (if d ≠ 0 then TIME_FILTERS.lookup d else none) = none := by
      split <;> simp [h]
    cases ea <;> simp only [build_search_url_params, hd, facetParam] <;>
      simp [List.lookup]

/-- Witness for `recency_param_conversion`. -/
theorem recency_param_conversion_witness :
    days_to_linkedin_param 7 = "r" ++ toString (7 * 86400)
    ∧ days_to_linkedin_param 0 = "r86400"
    ∧ days_to_linkedin_param 45 = "r2592000"
    ∧ (build_search_url_params "engineer" "UK" 0 7 none none none
        false).lookup "f_TPR" = some ("r" ++ toString (7 * 86400))
    ∧ (build_search_url_params "engineer" "UK" 0 2 none none none
        false).lookup "f_TPR" = none :=
  have t := recency_param_conversion 7 7 "engineer" "UK" 0 false
  have t0 := recency_param_conversion 0 2 "engineer" "UK" 0 false
  have t45 := recency_param_conversion 45 2 "engineer" "UK" 0 false
  ⟨t.1 (by decide) (by decide), t0.2.1 (by decide), t45.2.2.1 (by decide),
   t.2.2.2.1 (by decide), t0.2.2.2.2 (by decide)⟩

/-- C4: status and cancel requests by a non-owner on an existing run
return exactly the not-found responses of a nonexistent run id, and the
registry is left unchanged. -/
theorem cross_owner_access_indistinguishable_from_not_found
    (runs : ScrapeRuns) (rid : String) (run : ScrapeRun)
    (caller : Option String) (now : Nat)
    (hfind : findRun runs rid = some run)
    (howner : run.user_id ≠ caller) :
    get_scrape_status runs rid caller = .notFound rid
    ∧ get_scrape_status [] rid caller = .notFound rid
    ∧ cancel_scrape runs rid caller now = (.notFound rid, runs)
    ∧ cancel_scrape [] rid caller now = (.notFound rid, []) := by
  refine ⟨?_, rfl, ?_, rfl⟩ <;>
    simp [get_scrape_status, cancel_scrape, hfind, howner]

/-- Witness for `cross_owner_access_indistinguishable_from_not_found`:
Alice probing Bob's run. -/
theorem cross_owner_access_witness :
    get_scrape_status [("r1", bobRun)] "r1" (some "alice")
      = .notFound "r1"
    ∧ get_scrape_status [] "r1" (some "alice") = .notFound "r1"
    ∧ cancel_scrape [("r1", bobRun)] "r1" (some "alice") 7
      = (.notFound "r1", [("r1", bobRun)])
    ∧ cancel_scrape [] "r1" (some "alice") 7 = (.notFound "r1", []) :=
  cross_owner_access_indistinguishable_from_not_found
    [("r1", bobRun)] "r1" bobRun (some "alice") 7 (by decide) (by decide)

end JobScraper

namespace JobScraper

open JobScraper.Filters JobScraper.Security

/-- C7 counterexample: `sanitize_job_data` stores `applicants = null` for a
job whose applicant count is 0 (`if job.get("applicants")` is false for 0),
so 0 is not preserved in the stored record. -/
theorem sanitize_job_data_zero_applicants_coerced_to_null :
    (sanitize_job_data zeroApplicantJob).applicants = none
    ∧ (none : Option Nat) ≠ some 0 := by
  decide

/-- C7 amended: in the structural filter, `applicants = 0` passes every
applicant cap and a null applicants field never causes a drop (with
`maxApplicants = 0` only counts in `{0, null}` survive the applicant
check); but `sanitize_job_data` coerces `applicants = 0` to null in the
stored record. -/
theorem applicants_zero_and_null_filter_semantics :
    (∀ (j : Job) (cap hrs : Nat), j.applicants = some 0 →
        j.applicant_count = none → j.posted_ago = none →
        j.posted_hours_ago = none → j.is_active ≠ some false →
        job_passes_filters j cap hrs = (true, "passed"))
    ∧ (∀ (j : Job) (cap hrs : Nat), j.applicants = none →
        j.applicant_count = none → j.posted_ago = none →
        j.posted_hours_ago = none → j.is_active ≠ some false →
        job_passes_filters j cap hrs = (true, "passed"))
    ∧ (∀ (j : Job) (hrs n : Nat), pyOrNat j.applicants j.applicant_count = some n →
        0 < n → (job_passes_filters j 0 hrs).1 = false)
    ∧ (∀ j : Job, j.applicants = some 0 →
        (sanitize_job_data j).applicants = none) := by
  refine ⟨?_, ?_, ?_, ?_⟩
  · intro j cap hrs ha hac hpa hph hact
    simp [job_passes_filters, pyOrNat, pyOrPosted, ha, hac, hpa, hph, hact]
  · intro j cap hrs ha hac hpa hph hact
    simp [job_passes_filters, pyOrNat, pyOrPosted, ha, hac, hpa, hph, hact]
  · intro j hrs n ha hn
    simp [job_passes_filters, ha, hn]
  · intro j h
    simp [sanitize_job_data, h]

/-- Witness for `applicants_zero_and_null_filter_semantics`. -/
theorem applicants_zero_and_null_filter_witness :
    job_passes_filters zeroApplicantJob 0 168 = (true, "passed")
    ∧ job_passes_filters { title := some "x" } 0 168 = (true, "passed")
    ∧ (job_passes_filters { applicants := some 5 } 0 168).1 = false
    ∧ (sanitize_job_data zeroApplicantJob).applicants = none :=
  ⟨applicants_zero_and_null_filter_semantics.1 zeroApplicantJob 0 168 rfl rfl
      rfl rfl (by decide),
   applicants_zero_and_null_filter_semantics.2.1 { title := some "x" } 0 168
      rfl rfl rfl rfl (by decide),
   applicants_zero_and_null_filter_semantics.2.2.1 { applicants := some 5 }
      168 5 rfl (by decide),
   applicants_zero_and_null_filter_semantics.2.2.2 zeroApplicantJob rfl⟩

end JobScraper

namespace JobScraper

open JobScraper.Orchestrator

/-- Every job emitted by the discovered-jobs loop has a truthy external id
outside the incoming `seen_ids` and a truthy link outside the incoming
`seen_urls`. -/
theorem mem_merge_discovered (l : List Job) (si su : List String) :
    ∀ j ∈ merge_discovered l si su,
      (∀ v, truthyOpt j.external_id = some v → v ∉ si)
      ∧ (∀ u, truthyOpt j.link = some u → u ∉ su) := by
  induction l generalizing si su with
  | nil =>
    intro j hj
    simp [merge_discovered] at hj
  | cons job rest ih =>
    intro j hj
    rw [merge_discovered] at hj
    split at hj
    · exact ih si su j hj
    · split at hj
      · exact ih si su j hj
      · rcases List.mem_cons.mp hj with hj | hj
        · subst hj
          next hid hurl =>
          constructor
          · intro v hv
            simp only [show ({ job with source := some "duckduckgo" } :
                Job).external_id = job.external_id from rfl] at hv
            rw [hv] at hid
            simpa using hid
          · intro u hu
            simp only [show ({ job with source := some "duckduckgo" } :
                Job).link = job.link from rfl] at hu
            have hlink : job.link = some u ∧ ¬u.isEmpty := by
              cases hl : job.link with
              | none => simp [truthyOpt, hl] at hu
              | some s =>
                rw [hl] at hu
                unfold truthyOpt at hu
                by_cases hs : s.isEmpty
                · simp [hs] at hu
                · simp [hs] at hu
                  exact ⟨by rw [hu.symm], by rw [← hu]; exact hs⟩
            intro hmem
            apply hurl
            rw [hlink.1]
            simp [Option.getD, hlink.2, hmem]
        · have h := ih _ _ j hj
          constructor
          · intro v hv
            have hv' := h.1 v hv
            intro hmem
            apply hv'
            cases htid : truthyOpt job.external_id <;> simp [htid, hmem]
          · intro u hu
            have hu' := h.2 u hu
            intro hmem
            apply hu'
            by_cases hurl : (job.link.getD "").isEmpty <;> simp [hurl, hmem]

/-- The discovered-jobs loop emits pairwise id- and url-distinct records. -/
theorem merge_discovered_pairwise (l : List Job) (si su : List String) :
    (merge_discovered l si su).Pairwise DistinctIdAndUrl := by
  induction l generalizing si su with
  | nil => simp [merge_discovered]
  | cons job rest ih =>
    rw [merge_discovered]
    split
    · exact ih si su
    · split
      · exact ih si su
      · refine List.Pairwise.cons (fun b hb => ?_) (ih _ _)
        have hbav := mem_merge_discovered _ _ _ b hb
        constructor
        · intro v hv hbv
          simp only [show ({ job with source := some "duckduckgo" } :
              Job).external_id = job.external_id from rfl] at hv
          exact hbav.1 v hbv (by simp [hv])
        · intro u hu hbu
          simp only [show ({ job with source := some "duckduckgo" } :
              Job).link = job.link from rfl] at hu
          have hlink : job.link = some u ∧ ¬u.isEmpty := by
            cases hl : job.link with
            | none => simp [truthyOpt, hl] at hu
            | some s =>
              rw [hl] at hu
              unfold truthyOpt at hu
              by_cases hs : s.isEmpty
              · simp [hs] at hu
              · simp [hs] at hu
                exact ⟨by rw [hu.symm], by rw [← hu]; exact hs⟩
          apply hbav.2 u hbu
          rw [hlink.1]
          simp [Option.getD, hlink.2]

end JobScraper

namespace JobScraper

open JobScraper.Orchestrator

/-- C3 counterexample: two RapidAPI jobs with the same non-null external id
but different URLs are both kept by `_merge_jobs` — the second enters
through the URL branch after the id branch rejects it, so the output
contains two distinct jobs with equal non-null `externalId` (and no
richer-record replacement ever happens). -/
theorem merge_jobs_duplicate_external_id_counterexample :
    merge_jobs [] [rapidJobA, rapidJobB]
      = [{ rapidJobA with source := some "rapidapi" },
         { rapidJobB with source := some "rapidapi" }]
    ∧ ({ rapidJobA with source := some "rapidapi" } : Job)
        ≠ { rapidJobB with source := some "rapidapi" }
    ∧ ({ rapidJobA with source := some "rapidapi" } : Job).external_id
        = some "A"
    ∧ ({ rapidJobB with source := some "rapidapi" } : Job).external_id
        = some "A" := by
  decide

/-- C3 amended: when the RapidAPI list is empty (`use_rapidapi` disabled,
the default), any two distinct jobs in the merged output have distinct
external ids (when both truthy) and distinct links (when both truthy);
collisions keep the first-written record — there is no richer-record
replacement. -/
theorem merge_jobs_discovered_pairwise_distinct (discovered : List Job) :
    (merge_jobs discovered []).Pairwise DistinctIdAndUrl :=
  merge_discovered_pairwise discovered [] []

end JobScraper

namespace JobScraper

open JobScraper.Filters JobScraper.Orchestrator
open JobScraper.HtmlValidator JobScraper.Validator

/-- A tier-2 result that passes carries no closed/reposted verdict. -/
theorem validate_job_html_cases (f : HtmlFetch) (ma mh : Nat) :
    ((validate_job_html f ma mh).is_closed = false
      ∧ (validate_job_html f ma mh).is_reposted = false)
    ∨ (validate_job_html f ma mh).passes = false := by
  cases f with
  | rateDenied => exact Or.inl ⟨rfl, rfl⟩
  | timeout => exact Or.inl ⟨rfl, rfl⟩
  | error m => exact Or.inl ⟨rfl, rfl⟩
  | httpStatus code page =>
    simp only [validate_job_html]
    repeat' split
    all_goals first
      | exact Or.inr rfl
      | exact Or.inl ⟨rfl, rfl⟩

/-- A tier-3 result that passes has `is_active = true`. -/
theorem validate_job_internal_cases (out : PwOutcome) (ma md : Nat) :
    (validate_job_internal out ma md).is_active = true
    ∨ (validate_job_internal out ma md).passes_filters = false := by
  cases out with
  | taskError m => exact Or.inr rfl
  | rateDenied => exact Or.inr rfl
  | navError m => exact Or.inr rfl
  | page a act rep h =>
    simp only [validate_job_internal]
    repeat' split
    all_goals first
      | exact Or.inr rfl
      | (left; simp_all)

/-- `validate_with_semaphore` never outputs an affirmative closed/reposted
verdict on a job that passed. -/
theorem validate_with_semaphore_not_marked (job : Job) (fetch : HtmlFetch)
    (ma mh : Nat) (hc : job.NeverMarkedClosed)
    (hp : (validate_with_semaphore job fetch ma mh).2 = true) :
    (validate_with_semaphore job fetch ma mh).1.NeverMarkedClosed := by
  by_cases ht : truthyStr job.validation_tier
  · simpa [validate_with_semaphore, ht] using hc
  · by_cases hu : job.linkOrJobUrl.isEmpty
    · simpa [validate_with_semaphore, ht, hu] using hc
    · simp only [validate_with_semaphore, ht, hu, Bool.false_eq_true,
        if_false, if_neg] at hp ⊢
      rcases validate_job_html_cases fetch ma mh with ⟨hcl, hrp⟩ | hps
      · refine ⟨?_, ?_, ?_⟩ <;> simp [hcl, hrp]
        exact hc.2.2
      · rw [hps] at hp
        cases hp

/-- Tier-2 batch validation preserves the absence of closed/reposted
verdicts. -/
theorem validate_jobs_html_not_marked (jobs : List Job)
    (outs : List Tier2Outcome) (ma md : Nat)
    (hc : ∀ j ∈ jobs, j.NeverMarkedClosed) :
    ∀ j ∈ validate_jobs_html jobs outs ma md, j.NeverMarkedClosed := by
  intro j hj
  unfold validate_jobs_html at hj
  simp only [List.mem_filterMap] at hj
  obtain ⟨⟨job, out⟩, hmem, hval⟩ := hj
  have hcj := hc job (List.of_mem_zip hmem).1
  cases out with
  | taskError m => simp at hval
  | ok fetch =>
    simp only at hval
    split at hval
    · next hpass =>
      have hj' := Option.some.inj hval
      subst hj'
      exact validate_with_semaphore_not_marked job fetch ma (md * 24) hcj hpass
    · cases hval

/-- Tier-3 batch validation preserves the absence of closed/reposted
verdicts. -/
theorem validate_jobs_pw_not_marked (jobs : List Job)
    (outs : List PwOutcome) (ma md N : Nat)
    (hc : ∀ j ∈ jobs, j.NeverMarkedClosed) :
    ∀ j ∈ Validator.validate_jobs jobs outs ma md N, j.NeverMarkedClosed := by
  intro j hj
  unfold Validator.validate_jobs at hj
  rcases List.mem_append.mp hj with hj | hj
  · simp only [List.mem_filterMap] at hj
    obtain ⟨⟨job, out⟩, hmem, hval⟩ := hj
    have hcj := hc job (List.take_subset N jobs (List.of_mem_zip hmem).1)
    cases out with
    | taskError m =>
      have hj' := Option.some.inj hval
      subst hj'
      simpa [Job.NeverMarkedClosed] using hcj
    | rateDenied =>
      simp only at hval
      split at hval
      · next hpass =>
        have hj' := Option.some.inj hval
        subst hj'
        rcases validate_job_internal_cases .rateDenied ma md with hact | hps
        · exact ⟨hcj.1, hcj.2.1, by simp [hact]⟩
        · rw [hps] at hpass; cases hpass
      · cases hval
    | navError m =>
      simp only at hval
      split at hval
      · next hpass =>
        have hj' := Option.some.inj hval
        subst hj'
        rcases validate_job_internal_cases (.navError m) ma md with hact | hps
        · exact ⟨hcj.1, hcj.2.1, by simp [hact]⟩
        · rw [hps] at hpass; cases hpass
      · cases hval
    | page a act rep h =>
      simp only at hval
      split at hval
      · next hpass =>
        have hj' := Option.some.inj hval
        subst hj'
        rcases validate_job_internal_cases (.page a act rep h) ma md with
          hact | hps
        · exact ⟨hcj.1, hcj.2.1, by simp [hact]⟩
        · rw [hps] at hpass; cases hpass
      · cases hval
  · exact hc j (List.drop_subset N jobs hj)

end JobScraper

namespace JobScraper

open JobScraper.Orchestrator JobScraper.HtmlValidator JobScraper.Validator

/-- Every job admitted by the RapidAPI merge loop is an input job retagged
with `source = "rapidapi"`. -/
theorem mem_merge_rapidapi_shape (l : List Job) (si su : List String) :
    ∀ j ∈ (merge_rapidapi l si su).1,
      ∃ job ∈ l, j = { job with source := some "rapidapi" } := by
  induction l generalizing si su with
  | nil =>
    intro j hj
    simp [merge_rapidapi] at hj
  | cons job rest ih =>
    intro j hj
    rw [merge_rapidapi] at hj
    split at hj
    · next jid hjid =>
      split at hj
      · split at hj
        · rcases hrec : merge_rapidapi rest si (job.linkOrJobUrl :: su) with
            ⟨tail, si2, su2⟩
          rw [hrec] at hj
          rcases List.mem_cons.mp hj with hj | hj
          · exact ⟨job, List.mem_cons_self job rest, hj⟩
          · obtain ⟨job', hmem, heq⟩ := ih _ _ j (by rw [hrec]; exact hj)
            exact ⟨job', List.mem_cons_of_mem job hmem, heq⟩
        · obtain ⟨job', hmem, heq⟩ := ih _ _ j hj
          exact ⟨job', List.mem_cons_of_mem job hmem, heq⟩
      · rcases hrec : merge_rapidapi rest (jid :: si) su with ⟨tail, si2, su2⟩
        rw [hrec] at hj
        rcases List.mem_cons.mp hj with hj | hj
        · exact ⟨job, List.mem_cons_self job rest, hj⟩
        · obtain ⟨job', hmem, heq⟩ := ih _ _ j (by rw [hrec]; exact hj)
          exact ⟨job', List.mem_cons_of_mem job hmem, heq⟩
    · split at hj
      · rcases hrec : merge_rapidapi rest si (job.linkOrJobUrl :: su) with
          ⟨tail, si2, su2⟩
        rw [hrec] at hj
        rcases List.mem_cons.mp hj with hj | hj
        · exact ⟨job, List.mem_cons_self job rest, hj⟩
        · obtain ⟨job', hmem, heq⟩ := ih _ _ j (by rw [hrec]; exact hj)
          exact ⟨job', List.mem_cons_of_mem job hmem, heq⟩
      · obtain ⟨job', hmem, heq⟩ := ih _ _ j hj
        exact ⟨job', List.mem_cons_of_mem job hmem, heq⟩

/-- Every job admitted by the discovered merge loop is an input job
retagged with `source = "duckduckgo"`. -/
theorem mem_merge_discovered_shape (l : List Job) (si su : List String) :
    ∀ j ∈ merge_discovered l si su,
      ∃ job ∈ l, j = { job with source := some "duckduckgo" } := by
  induction l generalizing si su with
  | nil =>
    intro j hj
    simp [merge_discovered] at hj
  | cons job rest ih =>
    intro j hj
    rw [merge_discovered] at hj
    split at hj
    · obtain ⟨job', hmem, heq⟩ := ih _ _ j hj
      exact ⟨job', List.mem_cons_of_mem job hmem, heq⟩
    · split at hj
      · obtain ⟨job', hmem, heq⟩ := ih _ _ j hj
        exact ⟨job', List.mem_cons_of_mem job hmem, heq⟩
      · rcases List.mem_cons.mp hj with hj | hj
        · exact ⟨job, List.mem_cons_self job rest, hj⟩
        · obtain ⟨job', hmem, heq⟩ := ih _ _ j hj
          exact ⟨job', List.mem_cons_of_mem job hmem, heq⟩

/-- `_merge_jobs` preserves the absence of closed/reposted verdicts. -/
theorem merge_jobs_not_marked (discovered rapidapi : List Job)
    (hsrc : ∀ j ∈ discovered ++ rapidapi, j.NeverMarkedClosed) :
    ∀ j ∈ merge_jobs discovered rapidapi, j.NeverMarkedClosed := by
  intro j hj
  unfold merge_jobs at hj
  rcases hr : merge_rapidapi rapidapi [] [] with ⟨rjobs, si, su⟩
  rw [hr] at hj
  rcases List.mem_append.mp hj with hj | hj
  · obtain ⟨job, hmem, hrfl⟩ :=
      mem_merge_rapidapi_shape rapidapi [] [] j (by rw [hr]; exact hj)
    subst hrfl
    have := hsrc job (List.mem_append.mpr (Or.inr hmem))
    simpa [Job.NeverMarkedClosed] using this
  · obtain ⟨job, hmem, hrfl⟩ := mem_merge_discovered_shape discovered si su j hj
    subst hrfl
    have := hsrc job (List.mem_append.mpr (Or.inl hmem))
    simpa [Job.NeverMarkedClosed] using this

/-- The enrichment loop preserves the absence of closed/reposted
verdicts. -/
theorem enrich_loop_not_marked (jobs : List Job) (outs : List EnrichOutcome)
    (hc : ∀ j ∈ jobs, j.NeverMarkedClosed) :
    ∀ j ∈ enrich_loop jobs outs, j.NeverMarkedClosed := by
  intro j hj
  unfold enrich_loop at hj
  simp only [List.mem_map] at hj
  obtain ⟨⟨job, out⟩, hmem, heq⟩ := hj
  have hcj := hc job (List.of_mem_zip hmem).1
  subst heq
  split
  · cases out <;> simpa [apply_enrich, Job.NeverMarkedClosed] using hcj
  · simpa [Job.NeverMarkedClosed] using hcj

/-- Membership through the stable insertion. -/
theorem mem_insertByScoreDesc {j k : Job} {l : List Job}
    (h : j ∈ insertByScoreDesc k l) : j = k ∨ j ∈ l := by
  induction l with
  | nil => simpa [insertByScoreDesc] using h
  | cons b bs ih =>
    rw [insertByScoreDesc] at h
    split at h
    · exact List.mem_cons.mp h
    · rcases List.mem_cons.mp h with h | h
      · exact Or.inr (List.mem_cons.mpr (Or.inl h))
      · rcases ih h with h | h
        · exact Or.inl h
        · exact Or.inr (List.mem_cons.mpr (Or.inr h))

/-- Membership through the match-score sort. -/
theorem mem_sortByScoreDesc {j : Job} {l : List Job}
    (h : j ∈ sortByScoreDesc l) : j ∈ l := by
  have key : ∀ (l acc : List Job),
      ∀ j ∈ l.foldl (fun acc j => insertByScoreDesc j acc) acc,
        j ∈ acc ∨ j ∈ l := by
    intro l
    induction l with
    | nil => intro acc j hj; exact Or.inl hj
    | cons b bs ih =>
      intro acc j hj
      rcases ih _ j hj with h' | h'
      · rcases mem_insertByScoreDesc h' with h' | h'
        · exact Or.inr (by simp [h'])
        · exact Or.inl h'
      · exact Or.inr (List.mem_cons.mpr (Or.inr h'))
  rcases key l [] j h with h' | h'
  · cases h'
  · exact h'

end JobScraper

namespace JobScraper

open JobScraper.Orchestrator JobScraper.HtmlValidator JobScraper.Validator

/-- C2: whatever the sources deliver and however every validator call
turns out, no job in the final jobs list of a completed run carries
`isClosed = true` or `isReposted = true` (tier 2 writes
`html_is_closed`/`html_is_reposted`, tier 3 writes `is_active = false`;
every code path that sets such a verdict also fails the job, and failed
jobs are dropped). -/
theorem completed_run_jobs_never_closed_or_reposted
    (discovered rapidapi : List Job) (validate_html : Bool)
    (t2outs : List Tier2Outcome) (vflag pw : Bool)
    (t3outs : List PwOutcome) (use_gemini : Bool) (skills : List String)
    (eouts : List EnrichOutcome) (max_jobs posted_days max_apps top_n : Nat)
    (hsrc : ∀ j ∈ discovered ++ rapidapi, j.NeverMarkedClosed)
    (j : Job)
    (hj : j ∈ run_scrape_jobs discovered rapidapi validate_html t2outs vflag
      pw t3outs use_gemini skills eouts max_jobs posted_days max_apps top_n) :
    j.html_is_closed ≠ some true ∧ j.html_is_reposted ≠ some true
      ∧ j.is_active ≠ some false := by
  have h1 := merge_jobs_not_marked discovered rapidapi hsrc
  have h2 : ∀ k ∈ (if validate_html then
      validate_jobs_html (merge_jobs discovered rapidapi) t2outs max_apps
        posted_days
      else merge_jobs discovered rapidapi), k.NeverMarkedClosed := by
    split
    · exact validate_jobs_html_not_marked _ _ _ _ h1
    · exact h1
  have h3 : ∀ k ∈ (if vflag && pw then
      Validator.validate_jobs
        (if validate_html then
          validate_jobs_html (merge_jobs discovered rapidapi) t2outs max_apps
            posted_days
         else merge_jobs discovered rapidapi) t3outs max_apps posted_days
        top_n
      else (if validate_html then
          validate_jobs_html (merge_jobs discovered rapidapi) t2outs max_apps
            posted_days
         else merge_jobs discovered rapidapi)), k.NeverMarkedClosed := by
    split
    · exact validate_jobs_pw_not_marked _ _ _ _ _ h2
    · exact h2
  have h4 : ∀ k ∈ (if use_gemini && !skills.isEmpty then
      enrich_loop ((if vflag && pw then
        Validator.validate_jobs
          (if validate_html then
            validate_jobs_html (merge_jobs discovered rapidapi) t2outs
              max_apps posted_days
           else merge_jobs discovered rapidapi) t3outs max_apps posted_days
          top_n
        else (if validate_html then
          validate_jobs_html (merge_jobs discovered rapidapi) t2outs max_apps
            posted_days
         else merge_jobs discovered rapidapi)).take max_jobs) eouts
      else ((if vflag && pw then
        Validator.validate_jobs
          (if validate_html then
            validate_jobs_html (merge_jobs discovered rapidapi) t2outs
              max_apps posted_days
           else merge_jobs discovered rapidapi) t3outs max_apps posted_days
          top_n
        else (if validate_html then
          validate_jobs_html (merge_jobs discovered rapidapi) t2outs max_apps
            posted_days
         else merge_jobs discovered rapidapi)).take max_jobs)),
      k.NeverMarkedClosed := by
    split
    · exact enrich_loop_not_marked _ _
        (fun k hk => h3 k (List.take_subset _ _ hk))
    · exact fun k hk => h3 k (List.take_subset _ _ hk)
  simp only [run_scrape_jobs] at hj
  exact h4 j (mem_sortByScoreDesc hj)

/-- Witness for `completed_run_jobs_never_closed_or_reposted`: one
discovered job driven through tier-2 and tier-3 validation. -/
theorem completed_run_jobs_never_closed_witness :
    ddgPipelineResult.html_is_closed ≠ some true
    ∧ ddgPipelineResult.html_is_reposted ≠ some true
    ∧ ddgPipelineResult.is_active ≠ some false :=
  completed_run_jobs_never_closed_or_reposted [ddgSourceJob] [] true
    [.ok (.httpStatus 200
      "Software Engineer at Acme. 10 applicants. 2 days ago")]
    true true [.page (some 10) true false (some 48)] false [] [] 10 7 100 20
    (by decide) ddgPipelineResult (by decide)

end JobScraper
